import Mathlib

/-
Verification development for the Universal-downloader repository
(src/UniversalDownloader.py). The Python source is shallowly embedded:
each Python function appearing in a claim becomes a Lean definition over
an explicit state record describing the parts of the outside world the
function inspects (file properties, encoder exit code, filesystem
queries). Python's `None` return of a `-> bool` function is modelled as
`Option Bool` with `none` for falling off the end of the function;
exceptions are modelled with `Except` and explicit error constructors.
Float durations are modelled exactly: as integer milliseconds in the
conversion pipeline (the 0.1 s tolerance of the source becomes 100 ms)
and as a rational number of seconds in the progress-percentage
arithmetic.
-/

namespace UniversalDownloader

/-- Observable properties of an audio file on disk, as inspected by
`DownloadManager.verify_audio_file` (src/UniversalDownloader.py lines
200-230): whether the path ends in `.flac` (lowercased), whether the
mutagen reads/saves on the file raise an exception (`readOk = false`
models any raise inside the `try`, caught by the `except` clause),
and the stream properties and byte size the checks read. The
tag-initialisation side effect (lines 206-209) does not affect the
return value and is not modelled beyond `readOk`. -/
structure AudioProps where
  isFlac : Bool
  readOk : Bool
  channels : Nat
  sampleRate : Nat
  fileSize : Nat
deriving DecidableEq

/-- Literal embedding of `DownloadManager.verify_audio_file` (lines
200-230). The function is declared `-> bool` but contains no
`return True`: after the FLAC checks the body is the elided comment
`# ...rest of existing verify_audio_file code...` and control falls off
the end, returning Python `None`, modelled as `none`. The failure
branches return `False` (`some false`); an exception inside the `try`
is caught and also returns `False`. -/
def verify_audio_file (f : AudioProps) : Option Bool :=
  if f.isFlac then
    if f.readOk = false then some false
    else if f.channels ≠ 1 ∧ f.channels ≠ 2 then some false
    else if f.sampleRate ≠ 44100 ∧ f.sampleRate ≠ 48000 ∧ f.sampleRate ≠ 96000 then
      some false
    else if f.fileSize < 1024 * 100 then some false
    else none
  else none

/-- Python truthiness of an `Option Bool` result, as used by
`if not self.verify_audio_file(...)`: `None` and `False` are falsy. -/
def truthy : Option Bool → Bool
  | some true => true
  | _ => false

/-- Modelled from the spec: the tail of `verify_audio_file` after the
FLAC property checks is elided in the source behind the comment
`# ...rest of existing verify_audio_file code...`. Per the spec the
verification predicate returns true when every check passes; this
definition completes the literal `verify_audio_file` by returning
`True` exactly where the source falls off the end. -/
def verify_audio_file_full (f : AudioProps) : Option Bool :=
  some ((verify_audio_file f).getD true)

/-- The world state read by one run of `DownloadManager.convert_to_flac`
(lines 232-313): properties of the input file and of the output file the
encoder produces, the mutagen `.info.length` durations of both (modelled as exact
integer milliseconds; the float tolerance `0.1` s of line 304 becomes
100 ms), and the encoder subprocess exit code. -/
structure ConvState where
  input : AudioProps
  output : AudioProps
  inputLengthMs : Int
  outputLengthMs : Int
  returncode : Int
deriving DecidableEq

/-- The exception raised inside the `try` of `convert_to_flac`:
input verification `ValueError` (line 237), encoder `RuntimeError`
(line 288), output verification `ValueError` (line 292), duration
mismatch `ValueError` (line 305). -/
inductive ConvError
  | inputVerify
  | encoder
  | outputVerify
  | durationMismatch
deriving DecidableEq

/-- The body of the `try` block of `convert_to_flac` (lines 234-307),
parametrised by the verifier used for the input and output files (the
source calls `self.verify_audio_file`; claims are settled both against
the literal truncated verifier and against its spec-modelled
completion). The progress-monitor loop (lines 266-281) only drives the
progress bar and is modelled separately (`monitorLoop`); the metadata
copy (lines 294-298) does not affect the result and is modelled as
non-failing. -/
def convert_body (verify : AudioProps → Option Bool) (s : ConvState) :
    Except ConvError Unit :=
  if truthy (verify s.input) = false then Except.error ConvError.inputVerify
  else if s.returncode ≠ 0 then Except.error ConvError.encoder
  else if truthy (verify s.output) = false then Except.error ConvError.outputVerify
  else if (s.inputLengthMs - s.outputLengthMs).natAbs > 100 then
    Except.error ConvError.durationMismatch
  else Except.ok ()

/-- Outcome of `convert_to_flac`: the returned boolean, whether the
output file exists on disk after the call returns, and whether the
`Conversion Failed` message was printed. -/
structure ConvResult where
  success : Bool
  outputExists : Bool
  printedFailure : Bool
deriving DecidableEq

/-- Embedding of `convert_to_flac` (lines 232-313): the `try` body; on
success the output file (read several times by the success path) exists
and `True` is returned; any raised exception is caught by the
`except Exception` handler (lines 309-313), which prints the failure
message, removes the output file when it exists — leaving it absent in
every failure case — and returns `False`. -/
def convert_to_flac (verify : AudioProps → Option Bool) (s : ConvState) :
    ConvResult :=
  match convert_body verify s with
  | Except.ok _ => ⟨true, true, false⟩
  | Except.error _ => ⟨false, false, true⟩

/-- A readable, in-spec FLAC file: 2 channels, 44100 Hz, 204800 bytes
(200 KiB). Every check of `verify_audio_file` passes on it. -/
def goodFlacProps : AudioProps :=
  ⟨true, true, 2, 44100, 204800⟩

/-- An input file whose path does not end in `.flac`. -/
def nonFlacProps : AudioProps :=
  ⟨false, true, 2, 44100, 204800⟩

/-- A conversion state whose input is the in-spec FLAC file and whose
encoder run would succeed with matching durations (5 s each). -/
def convStateGood : ConvState :=
  ⟨goodFlacProps, goodFlacProps, 5000, 5000, 0⟩

/-- A conversion state reaching the duration-reconciliation check with a
1 s mismatch (input 5 s, output 6 s): both files verify, the encoder
exits 0, but the durations differ by more than 100 ms. -/
def convStateMismatch : ConvState :=
  ⟨goodFlacProps, goodFlacProps, 5000, 6000, 0⟩

/-- A conversion state in which the encoder subprocess exits with the
non-zero return code 1. -/
def convStateEncoderFail : ConvState :=
  ⟨goodFlacProps, goodFlacProps, 5000, 5000, 1⟩

/-- One line read from the encoder's progress stream by the monitor loop
of `convert_to_flac` (lines 266-281): either the line does not contain
`out_time_ms=` and is ignored, or it does but
`int(line.split('=')[1])` raises `ValueError` (or reading
`original_audio.info.length` raises `AttributeError`) — both caught by
the inner `except` and skipped with `continue` — or it parses to an
elapsed-time integer. -/
inductive ProgressLine
  | noOutTime
  | malformed
  | outTime (timeMs : Int)
deriving DecidableEq

/-- Python `int()` truncation toward zero of a (float-modelling)
rational. -/
def pyInt (q : ℚ) : Int :=
  if 0 ≤ q then ⌊q⌋ else -⌊-q⌋

/-- The percentage computed from a parsed progress line (line 276):
`min(int((time_ms / 1000) / original_audio.info.length * 100), 100)`,
where `length` is the input duration in seconds (a positive float,
modelled as an exact rational). -/
def lineProgress (length : ℚ) (timeMs : Int) : Int :=
  min (pyInt ((timeMs : ℚ) / 1000 / length * 100)) 100

/-- Processing of one stream line by the monitor loop (lines 273-281):
returns the new `last_progress` and whether `pbar.update` was called.
The bar is advanced by `progress - last_progress` and `last_progress`
set to `progress` only when `progress > last_progress`. -/
def processLine (length : ℚ) (last : Int) : ProgressLine → Int × Bool
  | ProgressLine.outTime t =>
    if lineProgress length t > last then (lineProgress length t, true)
    else (last, false)
  | _ => (last, false)

/-- The monitor loop (`while True`, lines 267-281) over the whole
progress stream: starting from `last_progress = 0` in the source, it
returns the final `last_progress` and the sequence of percentages the
bar displays after each update, in order. -/
def monitorLoop (length : ℚ) (last : Int) : List ProgressLine → Int × List Int
  | [] => (last, [])
  | l :: ls =>
    ((monitorLoop length (processLine length last l).1 ls).1,
      (if (processLine length last l).2 then [(processLine length last l).1] else []) ++
        (monitorLoop length (processLine length last l).1 ls).2)

/-- A small progress stream: a first update to some percentage, a
malformed line, a duplicate of the first time stamp, a later time stamp,
and a line without `out_time_ms=`. -/
def demoLines : List ProgressLine :=
  [ProgressLine.outTime 1000, ProgressLine.malformed, ProgressLine.outTime 1000,
   ProgressLine.outTime 3000, ProgressLine.noOutTime]

/-- Embedding of `DownloadManager.batch_download` (lines 458-461): the
thread pool receives one `self.download` task per URL, submitted in
input order, and the results are collected from the futures list in
that same order, so the outcome is the input list mapped through the
per-URL download outcome (the shared keyword options are fixed for the
whole batch and folded into `download`). -/
def batch_download (download : String → Bool) (urls : List String) : List Bool :=
  urls.map (fun url => download url)

/-- A JSON value as far as the configuration dictionary needs: the
defaults hold strings and the number 3. -/
inductive JVal
  | str (s : String)
  | nat (n : Nat)
deriving DecidableEq

/-- A JSON object / Python dict: association list of keys to values. -/
abbrev JObj : Type := List (String × JVal)

/-- Lookup of a key in a JSON object (first binding wins; objects
produced by `json.load` have distinct keys). -/
def JObj.find (o : JObj) (k : String) : Option JVal :=
  (List.find? (fun kv => kv.1 == k) o).map (fun kv => kv.2)

/-- Python double-star dict merge as in line 552: every key of the first
dict, its value overridden by the second dict where the second binds the
same key, followed by the keys only the second dict binds. -/
def dictMerge (a b : JObj) : JObj :=
  (a.map (fun kv => (kv.1, (JObj.find b kv.1).getD kv.2))) ++
    (b.filter (fun kv => (JObj.find a kv.1).isNone))

def emptyStr : String := ""

def keyFfmpegLocation : String := "ffmpeg_location"

def keyVideoOutput : String := "video_output"

def keyAudioOutput : String := "audio_output"

def keyMaxConcurrent : String := "max_concurrent"

/-- The `DEFAULT_CONFIG` dict (lines 70-75), parametrised by the two
environment-dependent values `str(Path.home() / 'Videos')` and
`str(Path.home() / 'Music')`; the encoder location defaults to the
empty string (to be auto-detected) and `max_concurrent` to 3. -/
def DEFAULT_CONFIG (videoOut audioOut : String) : JObj :=
  [(keyFfmpegLocation, JVal.str emptyStr),
   (keyVideoOutput, JVal.str videoOut),
   (keyAudioOutput, JVal.str audioOut),
   (keyMaxConcurrent, JVal.nat 3)]

/-- The exceptions relevant to `load_config`: `FileNotFoundError` from
`open`, and `json.JSONDecodeError` from `json.load`. -/
inductive PyExc
  | fileNotFound
  | jsonDecode
deriving DecidableEq

/-- What the configuration file holds when `load_config` runs: absent,
present but not valid JSON, or present with a parsed JSON object. -/
inductive FileContent
  | absent
  | malformed
  | parsed (o : JObj)

/-- The read-and-parse step inside the `try` of `load_config` (lines
551-552): `open(CONFIG_FILE, 'r')` raises `FileNotFoundError` on an
absent file, `json.load(f)` raises `JSONDecodeError` on malformed
contents. -/
def readConfigFile : FileContent → Except PyExc JObj
  | FileContent.absent => Except.error PyExc.fileNotFound
  | FileContent.malformed => Except.error PyExc.jsonDecode
  | FileContent.parsed o => Except.ok o

/-- Embedding of `load_config` (lines 549-556). The result pairs the
call's outcome (the returned dict, or the exception escaping to the
caller) with the file written by the `except FileNotFoundError` branch
(`none` when the file is left untouched). Only `FileNotFoundError` is
caught: it writes the defaults to disk and returns them; any other
exception propagates. A parse success returns the file's object merged
over the defaults. -/
def load_config (dft : JObj) (fc : FileContent) : Except PyExc JObj × Option JObj :=
  match readConfigFile fc with
  | Except.ok o => (Except.ok (dictMerge dft o), none)
  | Except.error PyExc.fileNotFound => (Except.ok dft, some dft)
  | Except.error e => (Except.error e, none)

/-- The environment probed by `find_ffmpeg` (lines 77-96): whether
`os.system('ffmpeg -version > nul 2>&1')` returns 0 (the encoder
answers on the execution PATH), the `os.path.exists` oracle, and the
separator `os.path.join` inserts (backslash on the Windows platform the
hard-coded locations target). -/
structure Env where
  onPath : Bool
  pathExists : String → Bool
  sep : String

def ffmpegSentinel : String := "ffmpeg"

def ffmpegExe : String := "ffmpeg.exe"

/-- The `common_locations` list of `find_ffmpeg` (lines 79-84), in
source order. -/
def common_locations : List String :=
  ["C:\\ffmpeg\\bin",
   "C:\\Program Files\\ffmpeg\\bin",
   "C:\\ffmpeg\\ffmpeg-master-latest-win64-gpl\\bin",
   ".\\ffmpeg\\bin"]

/-- `os.path.join(location, 'ffmpeg.exe')` (line 92). -/
def joinPath (e : Env) (dir fname : String) : String :=
  dir ++ e.sep ++ fname

/-- Embedding of `find_ffmpeg` (lines 77-96): if the PATH probe
succeeds, return the string `ffmpeg`; otherwise return the first of the
common locations whose `ffmpeg.exe` exists, or `None`. -/
def find_ffmpeg (e : Env) : Option String :=
  if e.onPath then some ffmpegSentinel
  else List.find? (fun loc => e.pathExists (joinPath e loc ffmpegExe)) common_locations

/-- Outcome of the encoder-locating prefix of `DownloadManager.__init__`
(lines 148-156): construction proceeds with a resolved encoder location,
or the remediation instructions are printed and `FileNotFoundError` is
raised, refusing construction. -/
inductive InitResult
  | proceeds (loc : String) (printedInstructions : Bool)
  | raisesFileNotFound (printedInstructions : Bool)
deriving DecidableEq

/-- Embedding of the encoder-locating prefix of
`DownloadManager.__init__` (lines 148-156): when the configured
`ffmpeg_location` is falsy (the empty string), the locator runs; a
found path is stored and construction proceeds, otherwise
`print_ffmpeg_instructions()` runs and `FileNotFoundError` is raised. -/
def manager_init (e : Env) (configuredLocation : String) : InitResult :=
  if configuredLocation == emptyStr then
    match find_ffmpeg e with
    | some p => InitResult.proceeds p false
    | none => InitResult.raisesFileNotFound true
  else InitResult.proceeds configuredLocation false

/-- An environment in which the PATH probe answers. -/
def envOnPath : Env :=
  ⟨true, fun _ => false, "\\"⟩

def progFilesDir : String := "C:\\Program Files\\ffmpeg\\bin"

def progFilesExe : String := "C:\\Program Files\\ffmpeg\\bin\\ffmpeg.exe"

/-- An environment in which the PATH probe fails and exactly the second
common location holds `ffmpeg.exe`. -/
def envSecond : Env :=
  ⟨false, fun s => s == progFilesExe, "\\"⟩

/-- An environment with no encoder anywhere. -/
def envNone : Env :=
  ⟨false, fun _ => false, "\\"⟩

end UniversalDownloader

namespace UniversalDownloader

/-- C1: the spec claims `verify_audio_file` returns true iff channel
count ∈ \x7b1,2\x7d, sample rate ∈ \x7b44100,48000,96000\x7d and size ≥ 100 KiB.
The code cannot: evaluated on a file satisfying all three conditions it
returns `None` (falsy), because the success tail of the function is
elided and control falls off the end. -/
theorem verify_good_input_returns_none :
    verify_audio_file goodFlacProps = none ∧
      truthy (verify_audio_file goodFlacProps) = false := by
  constructor <;> rfl

/-- C2: `verify_audio_file` never returns `True`: on every FLAC input
passing all property checks it returns `none` (Python `None`), on every
non-FLAC input it returns `none`, and its result is never `some true`;
consequently `convert_to_flac`, which requires a truthy input
verification before doing anything else, returns `False` on every
possible state. -/
theorem verify_never_true_convert_always_false :
    (∀ f : AudioProps, f.isFlac = true → f.readOk = true →
        (f.channels = 1 ∨ f.channels = 2) →
        (f.sampleRate = 44100 ∨ f.sampleRate = 48000 ∨ f.sampleRate = 96000) →
        1024 * 100 ≤ f.fileSize →
        verify_audio_file f = none) ∧
    (∀ f : AudioProps, f.isFlac = false → verify_audio_file f = none) ∧
    (∀ f : AudioProps, verify_audio_file f ≠ some true) ∧
    (∀ s : ConvState, convert_to_flac verify_audio_file s = ⟨false, false, true⟩) := by
  have hnever : ∀ f : AudioProps, verify_audio_file f ≠ some true := by
    intro f
    unfold verify_audio_file
    split
    · split
      · simp
      · split
        · simp
        · split
          · simp
          · split <;> simp
    · simp
  refine ⟨?_, ?_, hnever, ?_⟩
  · intro f hflac hread hch hsr hsz
    have h1 : ¬ (f.channels ≠ 1 ∧ f.channels ≠ 2) := by
      rcases hch with h | h <;> simp [h]
    have h2 : ¬ (f.sampleRate ≠ 44100 ∧ f.sampleRate ≠ 48000 ∧ f.sampleRate ≠ 96000) := by
      rcases hsr with h | h | h <;> simp [h]
    have h3 : ¬ (f.fileSize < 1024 * 100) := Nat.not_lt.mpr hsz
    simp [verify_audio_file, hflac, hread, h1, h2, h3]
  · intro f hflac
    simp [verify_audio_file, hflac]
  · intro s
    unfold convert_to_flac convert_body
    rw [show truthy (verify_audio_file s.input) = false from ?_]
    · simp
    · cases hv : verify_audio_file s.input with
      | none => rfl
      | some b =>
        cases b with
        | false => rfl
        | true => exact absurd hv (hnever s.input)

/-- C3 counterexample: on a concrete state that reaches the duration
check with a mismatch beyond 100 ms (using the spec-completed verifier
so that the branch is reachable), the raised `ValueError` is caught by
the shared `except` handler, which removes the output file: contrary to
the claim, the output file does NOT survive this branch. -/
theorem duration_branch_deletes_output_cex :
    convert_body verify_audio_file_full convStateMismatch =
      Except.error ConvError.durationMismatch ∧
    (convert_to_flac verify_audio_file_full convStateMismatch).success = false ∧
    (convert_to_flac verify_audio_file_full convStateMismatch).outputExists = false := by
  refine ⟨rfl, rfl, rfl⟩

/-- C3 (amended): when the input and output durations differ by more
than 100 ms — the run having passed input verification, a zero encoder
exit code and output verification — `convert_to_flac` reports failure
and the output file IS deleted by the exception handler, exactly like
every other failure path. -/
theorem duration_mismatch_fails_and_deletes
    (verify : AudioProps → Option Bool) (s : ConvState)
    (h1 : truthy (verify s.input) = true) (h2 : s.returncode = 0)
    (h3 : truthy (verify s.output) = true)
    (h4 : (s.inputLengthMs - s.outputLengthMs).natAbs > 100) :
    convert_to_flac verify s = ⟨false, false, true⟩ := by
  have hbody : convert_body verify s = Except.error ConvError.durationMismatch := by
    unfold convert_body
    rw [h1, h2]
    rw [if_neg (by simp), if_neg (by simp), if_neg (by simp [h3]), if_pos h4]
  simp [convert_to_flac, hbody]

/-- C3 witness: the amended theorem applied at the concrete
duration-mismatch state with the spec-completed verifier. -/
theorem duration_mismatch_fails_and_deletes_witness :
    truthy (verify_audio_file_full convStateMismatch.input) = true ∧
    convStateMismatch.returncode = 0 ∧
    truthy (verify_audio_file_full convStateMismatch.output) = true ∧
    (convStateMismatch.inputLengthMs - convStateMismatch.outputLengthMs).natAbs > 100 ∧
    convert_to_flac verify_audio_file_full convStateMismatch = ⟨false, false, true⟩ :=
  ⟨by decide, by decide, by decide, by decide,
    duration_mismatch_fails_and_deletes verify_audio_file_full convStateMismatch
      (by decide) (by decide) (by decide) (by decide)⟩

/-- C4: in every run in which the encoder subprocess exits with a
non-zero return code (the encoder only runs once input verification was
truthy), the `RuntimeError` is caught, the handler deletes any partial
output, and `convert_to_flac` returns `False` with the output file
absent. -/
theorem encoder_failure_fails_and_deletes
    (verify : AudioProps → Option Bool) (s : ConvState)
    (h1 : truthy (verify s.input) = true) (h2 : s.returncode ≠ 0) :
    convert_to_flac verify s = ⟨false, false, true⟩ := by
  simp [convert_to_flac, convert_body, h1, h2]

/-- C4 witness: the theorem applied at a concrete state with exit code
1 and the spec-completed verifier. -/
theorem encoder_failure_fails_and_deletes_witness :
    truthy (verify_audio_file_full convStateEncoderFail.input) = true ∧
    convStateEncoderFail.returncode ≠ 0 ∧
    convert_to_flac verify_audio_file_full convStateEncoderFail = ⟨false, false, true⟩ :=
  ⟨by decide, by decide,
    encoder_failure_fails_and_deletes verify_audio_file_full convStateEncoderFail
      (by decide) (by decide)⟩

/-- C5: `convert_to_flac` always produces a boolean result and never
lets an exception escape (its embedding is a total function into
`ConvResult`): for every verifier and every state it either returns
`True` with no failure message, exactly when the `try` body completes
without raising, or returns `False` having printed the failure
message. -/
theorem convert_always_boolean_no_escape
    (verify : AudioProps → Option Bool) (s : ConvState) :
    (convert_to_flac verify s = ⟨true, true, false⟩ ∨
      convert_to_flac verify s = ⟨false, false, true⟩) ∧
    (convert_to_flac verify s = ⟨true, true, false⟩ ↔
      convert_body verify s = Except.ok ()) := by
  unfold convert_to_flac
  cases h : convert_body verify s with
  | ok u => cases u; simp
  | error e => simp

/-- C2 witness: the theorem's first conjunct at the in-spec FLAC file,
its second at a non-FLAC file, and its last at a concrete conversion
state. -/
theorem verify_never_true_convert_always_false_witness :
    verify_audio_file goodFlacProps = none ∧
    verify_audio_file nonFlacProps = none ∧
    convert_to_flac verify_audio_file convStateGood = ⟨false, false, true⟩ :=
  ⟨verify_never_true_convert_always_false.1 goodFlacProps rfl rfl (Or.inr rfl)
      (Or.inl rfl) (by decide),
    verify_never_true_convert_always_false.2.1 nonFlacProps rfl,
    verify_never_true_convert_always_false.2.2.2 convStateGood⟩

/-- Auxiliary: lookup on a cons cell of a JSON object. -/
theorem jfind_cons (kv : String × JVal) (o : JObj) (k : String) :
    JObj.find (kv :: o) k = if kv.1 == k then some kv.2 else JObj.find o k := by
  cases hk : kv.1 == k <;> simp [JObj.find, List.find?, hk]

/-- Auxiliary: lookup on an appended JSON object. -/
theorem jfind_append (x y : JObj) (k : String) :
    JObj.find (x ++ y) k = (JObj.find x k).or (JObj.find y k) := by
  unfold JObj.find
  rw [List.find?_append]
  cases List.find? (fun kv => kv.1 == k) x <;> simp [Option.or]

/-- Auxiliary: lookup in the override-mapped left half of a dict
merge. -/
theorem jfind_map_override (b : JObj) (k : String) :
    ∀ a : JObj,
      JObj.find (a.map (fun kv => (kv.1, (JObj.find b kv.1).getD kv.2))) k =
        (JObj.find a k).map (fun v => (JObj.find b k).getD v)
  | [] => rfl
  | kv :: a => by
    rw [List.map_cons, jfind_cons, jfind_cons]
    cases hk : kv.1 == k with
    | true =>
      have hkeq : kv.1 = k := by simpa using hk
      simp [hkeq]
    | false => simp [hk, jfind_map_override b k a]

/-- Auxiliary: the filtered right half of a dict merge preserves lookup
of a key absent from the left dict. -/
theorem jfind_filter_not_in (a : JObj) (k : String) (ha : JObj.find a k = none) :
    ∀ b : JObj,
      JObj.find (b.filter (fun kv => (JObj.find a kv.1).isNone)) k = JObj.find b k
  | [] => rfl
  | kv :: b => by
    rw [List.filter_cons]
    cases hk : kv.1 == k with
    | true =>
      have hkeq : kv.1 = k := by simpa using hk
      have hpass : (JObj.find a kv.1).isNone = true := by rw [hkeq, ha]; rfl
      simp [hpass, jfind_cons, hk]
    | false =>
      cases hp : (JObj.find a kv.1).isNone with
      | true => simp [jfind_cons, hk, jfind_filter_not_in a k ha b]
      | false => simp [jfind_cons, hk, jfind_filter_not_in a k ha b]

/-- Auxiliary: a Python dict merge looks a key up in the second dict
first and falls back to the first dict. -/
theorem jfind_dictMerge (a b : JObj) (k : String) :
    JObj.find (dictMerge a b) k = (JObj.find b k).or (JObj.find a k) := by
  unfold dictMerge
  rw [jfind_append, jfind_map_override]
  cases ha : JObj.find a k with
  | some v => cases hb : JObj.find b k <;> simp [Option.or, hb]
  | none =>
    rw [jfind_filter_not_in a k ha b]
    cases hb : JObj.find b k <;> simp [Option.or]

/-- C8: with the configuration file absent, `load_config` writes a file
holding exactly the default keys and values and returns those defaults;
with the file present (and parsing), the returned configuration is the
file's object merged over the defaults — every key the file binds keeps
the file's value and every other key keeps its default — and nothing is
written. -/
theorem load_config_defaults_and_merge
    (videoOut audioOut : String) (o : JObj) (k : String) :
    load_config (DEFAULT_CONFIG videoOut audioOut) FileContent.absent =
      (Except.ok (DEFAULT_CONFIG videoOut audioOut),
        some (DEFAULT_CONFIG videoOut audioOut)) ∧
    load_config (DEFAULT_CONFIG videoOut audioOut) (FileContent.parsed o) =
      (Except.ok (dictMerge (DEFAULT_CONFIG videoOut audioOut) o), none) ∧
    JObj.find (dictMerge (DEFAULT_CONFIG videoOut audioOut) o) k =
      (JObj.find o k).or (JObj.find (DEFAULT_CONFIG videoOut audioOut) k) :=
  ⟨rfl, rfl, jfind_dictMerge (DEFAULT_CONFIG videoOut audioOut) o k⟩

/-- C10: `load_config` catches only `FileNotFoundError`; when the file
exists but holds malformed JSON, the `JSONDecodeError` raised by
`json.load` escapes to the caller uncaught — no fallback to the
defaults, and nothing is written. -/
theorem load_config_malformed_json_propagates (dft : JObj) :
    load_config dft FileContent.malformed = (Except.error PyExc.jsonDecode, none) := rfl

/-- C7: `batch_download` over a list of URLs yields exactly one boolean
result per URL, in input order: the result list has the input's length
and its i-th entry is the download outcome of the i-th URL, whatever
the individual outcomes are. -/
theorem batch_download_order (download : String → Bool) (urls : List String) :
    (batch_download download urls).length = urls.length ∧
    ∀ i : Nat, (batch_download download urls)[i]? = Option.map download urls[i]? := by
  refine ⟨by simp [batch_download], fun i => ?_⟩
  simp [batch_download]

/-- Auxiliary: the displayed percentages of the monitor loop form a
strictly increasing chain from the starting `last_progress`. -/
theorem monitorLoop_chain (length : ℚ) (ls : List ProgressLine) :
    ∀ last : Int, List.Chain (fun a b : Int => a < b) last (monitorLoop length last ls).2 := by
  induction ls with
  | nil => intro last; exact List.Chain.nil
  | cons l ls ih =>
    intro last
    cases l with
    | noOutTime => simpa [monitorLoop, processLine] using ih last
    | malformed => simpa [monitorLoop, processLine] using ih last
    | outTime t =>
      by_cases hp : last < lineProgress length t
      · simp only [monitorLoop, processLine, if_pos hp]
        simpa using List.Chain.cons hp (ih (lineProgress length t))
      · simpa [monitorLoop, processLine, if_neg hp] using ih last

/-- C6: during the progress-monitoring loop the bar is updated only when
the newly computed percentage strictly exceeds the last displayed one:
over any stream the displayed percentages are strictly increasing from
the starting `last_progress`; a line triggers an update iff it parses
an elapsed time whose percentage strictly exceeds the current
`last_progress`; and every skipped line (equal or smaller percentage,
malformed, or without `out_time_ms=`) leaves the loop state unchanged. -/
theorem progress_bar_monotone_updates
    (length : ℚ) (h : 0 < length) (last : Int) (ls : List ProgressLine) :
    List.Chain (fun a b : Int => a < b) last (monitorLoop length last ls).2 ∧
    (∀ l, (processLine length last l).2 = true ↔
      ∃ t, l = ProgressLine.outTime t ∧ last < lineProgress length t) ∧
    (∀ l, (processLine length last l).2 = false →
      processLine length last l = (last, false)) := by
  refine ⟨monitorLoop_chain length ls last, fun l => ?_, fun l hl => ?_⟩
  · cases l with
    | noOutTime => simp [processLine]
    | malformed => simp [processLine]
    | outTime t =>
      by_cases hp : last < lineProgress length t
      · simp [processLine, hp]
      · simp [processLine, hp]
  · cases l with
    | noOutTime => rfl
    | malformed => rfl
    | outTime t =>
      simp only [processLine] at hl ⊢
      by_cases hp : last < lineProgress length t
      · rw [if_pos hp] at hl
        cases hl
      · rw [if_neg hp]

/-- C6 witness: the theorem applied at input duration 1 s, starting
percentage 0 and the demo stream; the malformed line leaves the state
unchanged. -/
theorem progress_bar_monotone_updates_witness :
    (0 : ℚ) < 1 ∧
    List.Chain (fun a b : Int => a < b) 0 (monitorLoop 1 0 demoLines).2 ∧
    processLine 1 0 ProgressLine.malformed = (0, false) :=
  ⟨zero_lt_one,
    (progress_bar_monotone_updates 1 zero_lt_one 0 demoLines).1,
    (progress_bar_monotone_updates 1 zero_lt_one 0 demoLines).2.2
      ProgressLine.malformed rfl⟩

/-- C9: `find_ffmpeg` probes the execution PATH first — when the probe
answers it returns the sentinel string `ffmpeg` — and then the fixed
location list: a `some` result is the first listed directory whose
`ffmpeg.exe` exists (every earlier listed directory lacks it), and
`none` is returned exactly when no listed directory has it; on the
`None` result with no configured location, manager construction prints
the remediation instructions and raises `FileNotFoundError`. -/
theorem find_ffmpeg_contract (e : Env) :
    (e.onPath = true → find_ffmpeg e = some ffmpegSentinel) ∧
    (e.onPath = false → ∀ loc, find_ffmpeg e = some loc →
      e.pathExists (joinPath e loc ffmpegExe) = true ∧
      ∃ pre post, common_locations = pre ++ loc :: post ∧
        ∀ y ∈ pre, e.pathExists (joinPath e y ffmpegExe) = false) ∧
    (e.onPath = false →
      (find_ffmpeg e = none ↔
        ∀ loc ∈ common_locations, e.pathExists (joinPath e loc ffmpegExe) = false)) ∧
    (find_ffmpeg e = none → manager_init e emptyStr = InitResult.raisesFileNotFound true) := by
  refine ⟨fun h => by simp [find_ffmpeg, h], fun h loc hf => ?_, fun h => ?_, fun h => ?_⟩
  · rw [find_ffmpeg, if_neg (by simp [h])] at hf
    obtain ⟨hp, pre, post, heq, hall⟩ := List.find?_eq_some.mp hf
    refine ⟨hp, pre, post, heq, fun y hy => ?_⟩
    simpa using hall y hy
  · rw [find_ffmpeg, if_neg (by simp [h]), List.find?_eq_none]
    constructor
    · intro hnone loc hloc
      simpa using hnone loc hloc
    · intro hall loc hloc
      simp [hall loc hloc]
  · simp [manager_init, h]

/-- C9 witness: the theorem applied to an environment answering on the
PATH, to one where exactly the second listed directory holds
`ffmpeg.exe`, and to one with no encoder anywhere, where construction
aborts. -/
theorem find_ffmpeg_contract_witness :
    find_ffmpeg envOnPath = some ffmpegSentinel ∧
    (envSecond.pathExists (joinPath envSecond progFilesDir ffmpegExe) = true ∧
      ∃ pre post, common_locations = pre ++ progFilesDir :: post ∧
        ∀ y ∈ pre, envSecond.pathExists (joinPath envSecond y ffmpegExe) = false) ∧
    (∀ loc ∈ common_locations, envNone.pathExists (joinPath envNone loc ffmpegExe) = false) ∧
    manager_init envNone emptyStr = InitResult.raisesFileNotFound true :=
  ⟨(find_ffmpeg_contract envOnPath).1 rfl,
    (find_ffmpeg_contract envSecond).2.1 rfl progFilesDir (by decide),
    ((find_ffmpeg_contract envNone).2.2.1 rfl).mp (by decide),
    (find_ffmpeg_contract envNone).2.2.2 (by decide)⟩

end UniversalDownloader
